import Mathlib

/-!
Verification of the Weenix kernel sources (fs/s5fs, fs/vfs, vm, proc/fork).

Each definition below is a shallow embedding of a function from the C
sources, translated branch-by-branch; source locations are given in the
doc comments.  Machine integers are modelled as `Int`/`Nat` (the relevant
quantities never approach 2^31, except where an explicit unsigned-cast
comparison is modelled, which is noted in place).  C byte buffers are
modelled as total functions `Nat → Nat` and `memcpy` as a pointwise
range-overwrite.  Header files (s5fs.h, mmobj.h, mman.h, config.h) are not
part of the sources; the constants and accessor macros they define are
modelled from the spec, as noted on each such definition.
-/

namespace Weenix

/-- Error numbers (errno.h is not among the sources; the spec names a closed
set of error kinds, and only distinctness of the values matters). -/
def EINVAL : Int := 22

/-- No-entry error number. -/
def ENOENT : Int := 2

/-- No-space error number. -/
def ENOSPC : Int := 28

/-- Bad-file-descriptor error number. -/
def EBADF : Int := 9

/-- Modelled from the spec: the fixed block size of the S5 filesystem
("Block size fixed (e.g., 4 KiB)", spec §6; s5fs.h is not in the sources). -/
def S5_BLOCK_SIZE : Nat := 4096

/-- Modelled from the spec: the number of direct block slots `N_DIRECT` in an
inode (spec §3; s5fs.h is not in the sources — the spec fixes only that the
maximum file size is `N_DIRECT + block-size/4` blocks, so the exact value is
immaterial to the claims). -/
def S5_NDIRECT_BLOCKS : Nat := 28

/-- Modelled from the spec: number of block-number entries in one indirect
block, `block-size / 4` (spec §4.3). -/
def S5_NIDIRECT_BLOCKS : Nat := S5_BLOCK_SIZE / 4

/-- Modelled from the spec: "Maximum file size is `N_DIRECT + block-size / 4`
blocks" (spec §4.3). -/
def S5_MAX_FILE_BLOCKS : Nat := S5_NDIRECT_BLOCKS + S5_NIDIRECT_BLOCKS

/-- Maximum file size in bytes, as used by the guards of `s5_write_file`
(s5fs_subr.c:318, 329). -/
def S5_MAX_FILE_SIZE : Nat := S5_MAX_FILE_BLOCKS * S5_BLOCK_SIZE

/-- A C byte buffer, modelled as a total function from byte index to value. -/
def Buf : Type := Nat → Nat

/-- Model of `memcpy(dst + dstStart, src + srcStart, len)` on `Buf`s:
indices in `[dstStart, dstStart + len)` now read from `src`, all others are
unchanged. -/
def memcpyBuf (dst : Buf) (dstStart : Nat) (src : Buf) (srcStart : Nat)
    (len : Nat) : Buf :=
  fun i => if dstStart ≤ i ∧ i < dstStart + len then src (srcStart + (i - dstStart)) else dst i

/-- State of one S5 file as `s5_read_file`/`s5_write_file` see it: the inode
size (`inode->s5_size`, kept equal to `vnode->vn_len`, asserted at
s5fs_subr.c:403 and 445), the bytes of each file block as served by the page
cache (`pframe_get(&vnode->vn_mmobj, blockno, ...)`), and whether
`s5_dirty_inode` has been called. -/
structure S5File where
  size : Nat
  blocks : Nat → Buf
  inodeDirty : Bool

/-- Shallow embedding of `s5_write_file` (s5fs_subr.c:309-415).  `pframe_get`
is modelled as always succeeding (its failure paths return the error without
touching the state and are not exercised by the claims, which quantify over
successful writes).  Note that the single-block path (s5fs_subr.c:343-360)
returns without touching `size` or dirtying the inode; only the multi-block
path updates them (s5fs_subr.c:403-410). -/
def s5_write_file (f : S5File) (seek : Int) (bytes : Buf) (len : Nat) :
    Int × S5File :=
  if seek < 0 ∨ (S5_MAX_FILE_SIZE : Int) ≤ seek then (-EINVAL, f)
  else
    let seekN := seek.toNat
    let endI : Int := seek + (len : Int) - 1
    -- s5fs_subr.c:329 compares `(unsigned)end`: a negative off_t casts to a
    -- value ≥ 2^31 > S5_MAX_FILE_SIZE, hence the disjunct `endI < 0`.
    let clamped := endI < 0 ∨ (S5_MAX_FILE_SIZE : Int) ≤ endI
    let endN := if clamped then S5_MAX_FILE_SIZE - 1 else endI.toNat
    let lenC := if clamped then endN - seekN + 1 else len
    let blockStart := seekN / S5_BLOCK_SIZE
    let blockEnd := endN / S5_BLOCK_SIZE
    let offStart := seekN % S5_BLOCK_SIZE
    let offEnd := endN % S5_BLOCK_SIZE
    if blockStart = blockEnd then
      -- single-block path (s5fs_subr.c:343-360): copy, dirty the page, return
      let b1 := memcpyBuf (f.blocks blockStart) offStart bytes 0 lenC
      ((lenC : Int), { f with blocks := fun i => if i = blockStart then b1 else f.blocks i })
    else
      -- start block (s5fs_subr.c:363-374)
      let bS := memcpyBuf (f.blocks blockStart) offStart bytes 0 (S5_BLOCK_SIZE - offStart)
      let blocks1 : Nat → Buf := fun i => if i = blockStart then bS else f.blocks i
      -- end block (s5fs_subr.c:376-386); the source index used by the C code
      -- is (block_end - block_start) * S5_BLOCK_SIZE, translated verbatim
      let bE := memcpyBuf (blocks1 blockEnd) 0 bytes
        ((blockEnd - blockStart) * S5_BLOCK_SIZE) (offEnd + 1)
      let blocks2 : Nat → Buf := fun i => if i = blockEnd then bE else blocks1 i
      -- middle blocks (s5fs_subr.c:388-401)
      let blocks3 := (List.range' (blockStart + 1) (blockEnd - blockStart - 1)).foldl
        (fun bl i => fun j =>
          if j = i then memcpyBuf (bl i) 0 bytes ((i - blockStart) * S5_BLOCK_SIZE) S5_BLOCK_SIZE
          else bl j)
        blocks2
      -- size update and inode dirtying (s5fs_subr.c:403-410)
      let fileLength := max (endN + 1) f.size
      ((lenC : Int), { size := fileLength, blocks := blocks3, inodeDirty := true })

/-- Shallow embedding of `s5_read_file` (s5fs_subr.c:437-530).  `junk` models
the bytes read through the pointer `(char *)block_pframe + offset_start`
(s5fs_subr.c:501), which points into the `pframe_t` struct itself rather than
at the page data `pf_addr`; those bytes are unrelated to the file content, so
they are supplied as an arbitrary buffer.  `dest` is the caller's destination
buffer; the returned `Buf` is its final contents. -/
def s5_read_file (f : S5File) (junk : Buf) (seek : Int) (dest : Buf)
    (len : Nat) : Int × Buf :=
  if seek < 0 then (-EINVAL, dest)
  else if f.size ≤ seek.toNat then (0, dest)  -- EOF (s5fs_subr.c:454-457)
  else
    let seekN := seek.toNat
    let endI : Int := seek + (len : Int) - 1
    let clamped := endI < 0 ∨ (f.size : Int) ≤ endI  -- unsigned cast, as in write
    let endN := if clamped then f.size - 1 else endI.toNat
    let lenC := if clamped then endN - seekN + 1 else len
    let blockStart := seekN / S5_BLOCK_SIZE
    let blockEnd := endN / S5_BLOCK_SIZE
    let offStart := seekN % S5_BLOCK_SIZE
    let offEnd := endN % S5_BLOCK_SIZE
    if blockStart = blockEnd then
      -- single-block path (s5fs_subr.c:476-490)
      ((lenC : Int), memcpyBuf dest 0 (f.blocks blockStart) offStart lenC)
    else
      -- start block (s5fs_subr.c:493-502): reads from the pframe struct, not
      -- the page data — modelled by `junk`
      let d1 := memcpyBuf dest 0 junk offStart (S5_BLOCK_SIZE - offStart)
      -- end block (s5fs_subr.c:504-512)
      let d2 := memcpyBuf d1 ((blockEnd - blockStart) * S5_BLOCK_SIZE)
        (f.blocks blockEnd) 0 (offEnd + 1)
      -- middle blocks (s5fs_subr.c:514-525)
      let d3 := (List.range' (blockStart + 1) (blockEnd - blockStart - 1)).foldl
        (fun acc i => memcpyBuf acc ((i - blockStart) * S5_BLOCK_SIZE) (f.blocks i) 0 S5_BLOCK_SIZE)
        d2
      ((lenC : Int), d3)

/-- Modelled from the spec: the number of entries of the superblock
free-block array, `K = block-size / 4` (spec §6 disk layout; s5fs.h is not in
the sources). -/
def S5_NBLKS_PER_FNODE : Nat := S5_BLOCK_SIZE / 4

/-- The value `(uint32_t)-1`, the sentinel terminating the free-block chain
(s5fs_subr.c:561). -/
def U32_NEG1 : Nat := 4294967295

/-- The on-disk superblock fields manipulated by the free-block list
(`s5s_nfree` and `s5s_free_blocks`, spec §3 Superblock). -/
structure S5Super where
  nfree : Nat
  freeBlocks : Nat → Nat

/-- Filesystem state seen by `s5_alloc_block`/`s5_free_block`/
`s5_seek_to_block`: the superblock, whether the filesystem mutex
`s5f_mutex` is held, whether the superblock page has been dirtied, and the
block-device page contents (`pframe_get(&fs->s5f_bdev->bd_mmobj, b)`),
viewed as arrays of 32-bit words. -/
structure FsState where
  super : S5Super
  locked : Bool
  superDirty : Bool
  disk : Nat → Nat → Nat

/-- `lock_s5` (s5fs_subr.c:273-277): acquire the filesystem-wide mutex.  In
the single-threaded model acquiring simply marks it held. -/
def lock_s5 (fs : FsState) : FsState := { fs with locked := true }

/-- `unlock_s5` (s5fs_subr.c:282-286). -/
def unlock_s5 (fs : FsState) : FsState := { fs with locked := false }

/-- `s5_dirty_super` (s5fs_subr.c:31-41): dirty the superblock page. -/
def s5_dirty_super (fs : FsState) : FsState := { fs with superDirty := true }

/-- Shallow embedding of `s5_alloc_block` (s5fs_subr.c:549-599).  Note that
the no-free-blocks branch (s5fs_subr.c:561-564) returns `-ENOSPC` after
`lock_s5` without any matching `unlock_s5`, so the returned state still has
the mutex held on that path. -/
def s5_alloc_block (fs : FsState) : Int × FsState :=
  let fs1 := lock_s5 fs
  if fs1.super.nfree = 0 ∧ fs1.super.freeBlocks (S5_NBLKS_PER_FNODE - 1) = U32_NEG1 then
    (-ENOSPC, fs1)
  else if fs1.super.nfree = 0 then
    -- refill from the chained batch block (s5fs_subr.c:568-585)
    let blocknum := fs1.super.freeBlocks (S5_NBLKS_PER_FNODE - 1)
    let fb : Nat → Nat := fun i =>
      if i < S5_NBLKS_PER_FNODE then fs1.disk blocknum i else fs1.super.freeBlocks i
    let fs2 := { fs1 with super := { nfree := S5_NBLKS_PER_FNODE - 1, freeBlocks := fb } }
    ((blocknum : Int), unlock_s5 (s5_dirty_super fs2))
  else
    -- pop from the array (s5fs_subr.c:587)
    let n := fs1.super.nfree - 1
    let blocknum := fs1.super.freeBlocks n
    let fs2 := { fs1 with super := { fs1.super with nfree := n } }
    ((blocknum : Int), unlock_s5 (s5_dirty_super fs2))

/-- Shallow embedding of `s5_free_block` (s5fs_subr.c:611-643). -/
def s5_free_block (fs : FsState) (blockno : Nat) : FsState :=
  let fs1 := lock_s5 fs
  if fs1.super.nfree = S5_NBLKS_PER_FNODE - 1 then
    -- write the current array to the newly freed block and restart
    -- (s5fs_subr.c:621-635)
    let disk2 : Nat → Nat → Nat := fun b i =>
      if b = blockno ∧ i < S5_NBLKS_PER_FNODE then fs1.super.freeBlocks i else fs1.disk b i
    let fb2 : Nat → Nat := fun i =>
      if i = S5_NBLKS_PER_FNODE - 1 then blockno else fs1.super.freeBlocks i
    let fs2 := { fs1 with disk := disk2, super := { nfree := 0, freeBlocks := fb2 } }
    unlock_s5 (s5_dirty_super fs2)
  else
    -- push onto the array (s5fs_subr.c:637)
    let fb2 : Nat → Nat := fun i =>
      if i = fs1.super.nfree then blockno else fs1.super.freeBlocks i
    let fs2 := { fs1 with super := { nfree := fs1.super.nfree + 1, freeBlocks := fb2 } }
    unlock_s5 (s5_dirty_super fs2)

/-- Inode type tags (spec §3: {free, data, dir, char-dev, block-dev};
s5fs.h is not in the sources). -/
inductive S5Type
  | free
  | data
  | dir
  | chr
  | blk
deriving DecidableEq

/-- The inode fields used by `s5_seek_to_block`: type, direct block slots,
indirect block number, and whether `s5_dirty_inode` has been called. -/
structure S5Inode where
  typ : S5Type
  directBlocks : Nat → Nat
  indirectBlock : Nat
  dirty : Bool

/-- Shallow embedding of `s5_seek_to_block` (s5fs_subr.c:63-267).
`S5_DATA_BLOCK(seekptr)` is `seekptr / S5_BLOCK_SIZE`.  The out-of-range
guard at s5fs_subr.c:76 is the strict comparison
`blocknum_file > S5_MAX_FILE_BLOCKS`, translated verbatim.  `pframe_get` on
the block-device object never fails (asserted at s5fs_subr.c:151-153) and is
modelled as reading/writing `fs.disk`. -/
def s5_seek_to_block (ino : S5Inode) (fs : FsState) (seekptr : Int)
    (alloc : Bool) : Int × S5Inode × FsState :=
  if seekptr < 0 then (-EINVAL, ino, fs)
  else
    let bfile := seekptr.toNat / S5_BLOCK_SIZE
    if S5_MAX_FILE_BLOCKS < bfile then (-EINVAL, ino, fs)
    else if bfile < S5_NDIRECT_BLOCKS then
      -- direct block (s5fs_subr.c:96-131)
      let bn := ino.directBlocks bfile
      if bn = 0 then
        if alloc = false then (0, ino, fs)
        else
          let (r, fs1) := s5_alloc_block fs
          if r < 0 then (r, ino, fs1)
          else
            let db2 : Nat → Nat := fun i => if i = bfile then r.toNat else ino.directBlocks i
            (r, { ino with directBlocks := db2, dirty := true }, fs1)
      else ((bn : Int), ino, fs)
    else if ino.typ = S5Type.data ∨ ino.typ = S5Type.dir then
      let bidx := bfile - S5_NDIRECT_BLOCKS
      if ino.indirectBlock ≠ 0 then
        -- existing indirect block (s5fs_subr.c:142-192)
        let bn := fs.disk ino.indirectBlock bidx
        if bn = 0 then
          if alloc = false then (0, ino, fs)
          else
            let (r, fs1) := s5_alloc_block fs
            if r < 0 then (r, ino, fs1)
            else
              let disk2 : Nat → Nat → Nat := fun b i =>
                if b = ino.indirectBlock ∧ i = bidx then r.toNat else fs1.disk b i
              (r, ino, { fs1 with disk := disk2 })
        else ((bn : Int), ino, fs)
      else
        -- sparse indirect block (s5fs_subr.c:193-257)
        if alloc = false then (0, ino, fs)
        else
          let (ib, fs1) := s5_alloc_block fs
          if ib < 0 then (ib, ino, fs1)
          else
            -- memset of the fresh indirect page (s5fs_subr.c:227-228)
            let disk2 : Nat → Nat → Nat := fun b i =>
              if b = ib.toNat ∧ i < S5_NIDIRECT_BLOCKS then 0 else fs1.disk b i
            let (r, fs3) := s5_alloc_block { fs1 with disk := disk2 }
            if r < 0 then (r, ino, s5_free_block fs3 ib.toNat)
            else
              let disk4 : Nat → Nat → Nat := fun b i =>
                if b = ib.toNat ∧ i = bidx then r.toNat else fs3.disk b i
              (r, { ino with indirectBlock := ib.toNat, dirty := true },
                { fs3 with disk := disk4 })
    else
      -- the panic at s5fs_subr.c:260 is followed by `return -EINVAL`
      (-EINVAL, ino, fs)

/-- State of one directory as `s5_remove_dirent` sees it: the directory
entries in file order (each a (name, inode-number) pair, names modelled as
tokens) and the on-disk link counts of every inode.  The directory length is
`entries.length * sizeof(s5_dirent_t)`. -/
structure DirState where
  entries : List (Nat × Nat)
  linkcount : Nat → Nat

/-- Modelled from the spec: `sizeof(s5_dirent_t)` — a 4-byte inode number
plus the fixed-length name (spec §6 disk layout: "Directory entries are
{inode_number (u32), name (fixed NAME_LEN bytes)}"; s5fs.h is not in the
sources).  Only its positivity matters below. -/
def S5_DIRENT_SIZE : Nat := 32

/-- Outcome of `s5_remove_dirent`: either a failing KASSERT/panic halts the
kernel, or the function returns a value together with the directory
state. -/
inductive RemoveDirentOut
  | panics
  | ret (r : Int) (d : DirState)

/-- Shallow embedding of `s5_remove_dirent` (s5fs_subr.c:860-954).  The
search loop (s5fs_subr.c:884-900) stores the return value of each
one-dirent `s5_read_file` in `err`; a successful read of one dirent returns
the positive byte count `sizeof(s5_dirent_t)` (s5fs_subr.c:489), so after
the loop body has run at least once — i.e. on every non-empty directory —
`err` is `S5_DIRENT_SIZE`, and the assertion `KASSERT(err == 0)` at
s5fs_subr.c:903 fails: the kernel panics before the move-last write, the
shrink, and the link-count decrement (s5fs_subr.c:908-951), which are
therefore unreachable.  (The unreachable decrement at s5fs_subr.c:930
moreover reads `VNODE_TO_S5INODE(vnode)`, the directory's inode, not the
removed entry's.)  The live return paths are: an empty directory leaves
`err = 0` and the not-found sentinel `inodeno = 0`, returning `-ENOENT`
(s5fs_subr.c:904-906); the continuation past that test needs `err = 0`
(empty loop) together with a matched entry, which is contradictory — were
it entered, the read of the "last" dirent of an empty directory at seek
`0 - sizeof(s5_dirent_t)` would fail with `-EINVAL` (s5fs_subr.c:447-450)
and be returned (s5fs_subr.c:910-913). -/
def s5_remove_dirent (d : DirState) (name : Nat) : RemoveDirentOut :=
  let err : Int := if d.entries.isEmpty then 0 else (S5_DIRENT_SIZE : Int)
  let inodeno : Nat :=
    (d.entries.findIdx? (fun e => e.1 == name)).elim 0 (fun i => (d.entries.getD i (0, 0)).2)
  if err ≠ 0 then RemoveDirentOut.panics
  else if inodeno = 0 then RemoveDirentOut.ret (-ENOENT) d
  else RemoveDirentOut.ret (-EINVAL) d

/-- `vref`: increment a vnode's reference count (vnode refcounts modelled as
a map from vnode id to count). -/
def vref (refc : Nat → Nat) (v : Nat) : Nat → Nat :=
  fun x => if x = v then refc x + 1 else refc x

/-- `vput`: decrement a vnode's reference count. -/
def vput (refc : Nat → Nat) (v : Nat) : Nat → Nat :=
  fun x => if x = v then refc x - 1 else refc x

/-- Shallow embedding of `lookup` (namev.c:29-66) over an abstract
filesystem `resolve : dir-vnode → name-token → Option vnode`.  The
filesystem-specific lookup returns its result with the refcount incremented
(namev.c:26 "returns with the vnode refcount on *result incremented").
`isDir` models which vnodes have a lookup operation (namev.c:37). -/
def lookup (isDir : Nat → Bool) (resolve : Nat → Nat → Option Nat)
    (refc : Nat → Nat) (dir name : Nat) : Option Nat × (Nat → Nat) :=
  if isDir dir = false then (none, refc)
  else
    match resolve dir name with
    | none => (none, refc)
    | some v => (some v, vref refc v)

/-- The component-walking loop of `dir_namev` (namev.c:148-180), over the
path already split into name components: every component before the last is
resolved with `lookup` (which refs the child) followed by `vput` of the
previous directory; the last component is returned with the current
directory as parent. -/
def dirNamevGo (isDir : Nat → Bool) (resolve : Nat → Nat → Option Nat)
    (refc : Nat → Nat) (cur : Nat) :
    List Nat → Option (Nat × Nat) × (Nat → Nat)
  | [] => (none, refc)
  | [last] => (some (cur, last), refc)
  | c :: rest =>
    match lookup isDir resolve refc cur c with
    | (none, refc1) => (none, vput refc1 cur)
    | (some v, refc1) => dirNamevGo isDir resolve (vput refc1 cur) v rest

/-- Shallow embedding of `dir_namev` (namev.c:87-191) for an absolute path
with component list `comps`: the empty path fails (-EINVAL, namev.c:115-119);
otherwise the start directory is `vref`ed (namev.c:146-147) and the
components walked.  On success the parent directory carries one extra
reference.  (The path-is-just-"/" special case at namev.c:129-135 is not
exercised by the claims and not modelled.) -/
def dir_namev (isDir : Nat → Bool) (resolve : Nat → Nat → Option Nat)
    (refc : Nat → Nat) (root : Nat) (comps : List Nat) :
    Option (Nat × Nat) × (Nat → Nat) :=
  match comps with
  | [] => (none, refc)
  | _ => dirNamevGo isDir resolve (vref refc root) root comps

/-- Shallow embedding of `open_namev` (namev.c:201-254).  `createRes` models
the parent directory's `create` operation (which returns the new vnode with
its refcount incremented).  Note the success paths (lookup hit, namev.c:229
then 249-251, and create success, namev.c:233-239 then 249-251) return
without `vput(vn_dir)`: the parent's reference taken by `dir_namev` is
leaked. -/
def open_namev (isDir : Nat → Bool) (resolve : Nat → Nat → Option Nat)
    (createRes : Nat → Nat → Option Nat) (refc : Nat → Nat) (root : Nat)
    (comps : List Nat) (creat : Bool) : Option Nat × (Nat → Nat) :=
  match dir_namev isDir resolve refc root comps with
  | (none, refc1) => (none, refc1)
  | (some (parent, base), refc1) =>
    if isDir parent = false then (none, vput refc1 parent)
    else
      match lookup isDir resolve refc1 parent base with
      | (some v, refc2) => (some v, refc2)
      | (none, refc2) =>
        if creat then
          match createRes parent base with
          | some v => (some v, vref refc2 v)
          | none => (none, vput refc2 parent)
        else (none, vput refc2 parent)

/-- Shallow embedding of `do_stat` (vfs_syscall.c:766-783): resolve the path
with `open_namev` (flags O_RDONLY, so no create), call the vnode's `stat`
operation (which does not touch refcounts), and return — without any `vput`
of the resolved vnode (vfs_syscall.c:780).  Errors from `open_namev` are
propagated; the model collapses them to `-ENOENT`. -/
def do_stat (isDir : Nat → Bool) (resolve : Nat → Nat → Option Nat)
    (createRes : Nat → Nat → Option Nat) (refc : Nat → Nat) (root : Nat)
    (comps : List Nat) : Int × (Nat → Nat) :=
  match open_namev isDir resolve createRes refc root comps false with
  | (none, refc1) => (-ENOENT, refc1)
  | (some _, refc1) => (0, refc1)

/-- Modelled from the spec: `NFILES`, the size of the process open-file
table (spec §3 "fixed-size array of open-file references indexed by small
non-negative integers"; config.h is not in the sources and the exact value
is immaterial to the claims). -/
def NFILES : Int := 32

/-- Process open-file state as the descriptor syscalls see it: the
descriptor table (`curproc->p_files`) and the reference count of each open
file (`f_refcount`). -/
structure FdTable where
  files : Nat → Option Nat
  frefc : Nat → Nat

/-- `fref(f)`: take one reference on an open file (file refcounts modelled
as a map from file id to count; file.c is not in the sources — modelled
from the spec's open-file reference counting, §3/§5). -/
def fref (s : FdTable) (f : Nat) : FdTable :=
  { s with frefc := fun x => if x = f then s.frefc x + 1 else s.frefc x }

/-- Modelled from the spec: `fget(fd)` looks up descriptor `fd` in the
current process's table and takes a reference on the open file found there;
out-of-range or empty descriptors yield NULL (file.c is not in the sources;
spec §4.2). -/
def fget (s : FdTable) (fd : Int) : Option Nat × FdTable :=
  if fd < 0 ∨ NFILES ≤ fd then (none, s)
  else
    match s.files fd.toNat with
    | none => (none, s)
    | some f => (some f, fref s f)

/-- Modelled from the spec: `fput(f)` releases one reference on an open
file.  The destroy-at-zero cascade (dropping the vnode) is not needed by
the claims and not modelled. -/
def fput (s : FdTable) (f : Nat) : FdTable :=
  { s with frefc := fun x => if x = f then s.frefc x - 1 else s.frefc x }

/-- Shallow embedding of `do_close` (vfs_syscall.c:133-151): clear the
descriptor slot and `fput` the file. -/
def do_close (s : FdTable) (fd : Int) : Int × FdTable :=
  if fd < 0 ∨ NFILES ≤ fd then (-EBADF, s)
  else
    match s.files fd.toNat with
    | none => (-EBADF, s)
    | some f =>
      let files1 : Nat → Option Nat := fun i => if i = fd.toNat then none else s.files i
      (0, fput { s with files := files1 } f)

/-- Shallow embedding of `do_dup2` (vfs_syscall.c:203-235).  The entry guard
tests only `ofd == -1` (vfs_syscall.c:206); `fget` performs the real range
check.  When `ofd == nfd` the function returns `nfd` immediately
(vfs_syscall.c:220-222) without releasing the reference `fget` took. -/
def do_dup2 (s : FdTable) (ofd nfd : Int) : Int × FdTable :=
  if ofd = -1 then (-EBADF, s)
  else
    match fget s ofd with
    | (none, s1) => (-EBADF, s1)
    | (some f, s1) =>
      if nfd < 0 ∨ NFILES ≤ nfd then (-EBADF, fput s1 f)
      else if ofd = nfd then (nfd, s1)
      else
        let s2 := match s1.files nfd.toNat with
          | some _ => (do_close s1 nfd).2
          | none => s1
        let files3 : Nat → Option Nat := fun i => if i = nfd.toNat then some f else s2.files i
        (nfd, { s2 with files := files3 })

/-- Modelled from the spec: the MAP_SHARED flag bit (spec §6 mmap flags;
mman.h is not in the sources; only distinctness of the bits matters). -/
def MAP_SHARED : Nat := 1

/-- Modelled from the spec: the MAP_PRIVATE flag bit. -/
def MAP_PRIVATE : Nat := 2

/-- Modelled from the spec: the page size (4 KiB pages; page.h is not in
the sources). -/
def PAGE_SIZE : Nat := 4096

/-- The `mmobj_t` fields the claims depend on: reference count, whether the
object is a shadow object (i.e. carries the shadow ops table), the
`mmo_shadowed` parent pointer and the `mmo_un.mmo_bottom_obj` pointer. -/
structure Mmo where
  refcount : Nat
  isShadow : Bool
  shadowed : Option Nat
  bottom : Option Nat

/-- Heap of memory objects: a store indexed by object id and an allocation
counter; ids `≥ next` are unallocated, so freshly created objects are
distinct from every live one. -/
structure MmoHeap where
  objs : Nat → Mmo
  next : Nat

/-- `mmobj_init`: fresh object with refcount 0 and no chain links
(mmobj.h is not in the sources; modelled from the spec's MMO data model,
§3 — the claims speak only of reference-count increments). -/
def mmoInit (isSh : Bool) : Mmo :=
  { refcount := 0, isShadow := isSh, shadowed := none, bottom := none }

/-- Allocate a fresh object id and initialise it. -/
def allocMmo (h : MmoHeap) (isSh : Bool) : Nat × MmoHeap :=
  let o : Nat → Mmo := fun j => if j = h.next then mmoInit isSh else h.objs j
  (h.next, { objs := o, next := h.next + 1 })

/-- `shadow_create` (shadow.c:67-79): allocate and `mmobj_init` a fresh
shadow object. -/
def shadow_create (h : MmoHeap) : Nat × MmoHeap := allocMmo h true

/-- `anon_create` (anon.c:54-66): allocate and `mmobj_init` a fresh
anonymous object. -/
def anon_create (h : MmoHeap) : Nat × MmoHeap := allocMmo h false

/-- `o->mmo_ops->ref(o)` — `shadow_ref` (shadow.c:86-97) / `anon_ref`
(anon.c:71-83): increment the reference count. -/
def mmo_ref (h : MmoHeap) (o : Nat) : MmoHeap :=
  let upd : Mmo := { h.objs o with refcount := (h.objs o).refcount + 1 }
  { h with objs := fun j => if j = o then upd else h.objs j }

/-- The two assignments `o->mmo_shadowed = sh` and
`o->mmo_un.mmo_bottom_obj = bot` (fork.c:111-114 / 117-120). -/
def setShadowLinks (h : MmoHeap) (o sh bot : Nat) : MmoHeap :=
  let upd : Mmo := { h.objs o with shadowed := some sh, bottom := some bot }
  { h with objs := fun j => if j = o then upd else h.objs j }

/-- `mmobj_bottom_obj(o)` — modelled from the spec (mmobj.h is not in the
sources; spec §3: a shadow carries a pointer to the non-shadow "bottom"
object at the tail of the chain, and a non-shadow object is its own
bottom): an object with a non-null `mmo_shadowed` yields its bottom
pointer, any other object yields itself. -/
def mmobj_bottom_obj (h : MmoHeap) (o : Nat) : Nat :=
  match (h.objs o).shadowed with
  | some _ => (h.objs o).bottom.getD o
  | none => o

/-- The `vmarea_t` fields used by the claims.  `olinkedTo` records which
object's `mmo_vmas` cross-reference list the area's `vma_olink` is on
(`none` = not linked into any list). -/
structure Vmarea where
  vstart : Nat
  vend : Nat
  voff : Nat
  vprot : Nat
  vflags : Nat
  obj : Nat
  olinkedTo : Option Nat

/-- The body of `vmmap_shadow`'s per-area iteration (fork.c:70-131) for one
pair of corresponding areas, `newarea` from the cloned (child) map and
`oldarea` from the parent's map.  SHARED areas are skipped (fork.c:76-85).
For PRIVATE areas the source asserts `newarea->vma_obj == oldarea->vma_obj`
(fork.c:100) and then: computes the bottom of the shared object's chain
(fork.c:102), creates two fresh shadow objects (fork.c:105-108), wires each
one's `mmo_shadowed` to the shared object and its bottom pointer to the
computed bottom with one `ref` of the bottom per shadow (fork.c:111-121),
and finally swaps each area's `vma_obj` to its shadow, reffing each shadow
once (fork.c:127-130).  The olink insertions at fork.c:123-124 are
commented out in the source and correspondingly absent here. -/
def vmmap_shadow_pair (h : MmoHeap) (newarea oldarea : Vmarea) :
    MmoHeap × Vmarea × Vmarea :=
  if oldarea.vflags &&& MAP_SHARED ≠ 0 then (h, newarea, oldarea)
  else
    let shadowed := oldarea.obj
    let bottom := mmobj_bottom_obj h shadowed
    let (n1, h1) := shadow_create h
    let (n2, h2) := shadow_create h1
    let h3 := setShadowLinks h2 n1 shadowed bottom
    let h4 := mmo_ref h3 bottom
    let h5 := setShadowLinks h4 n2 shadowed bottom
    let h6 := mmo_ref h5 bottom
    let h7 := mmo_ref h6 n1
    let h8 := mmo_ref h7 n2
    (h8, { newarea with obj := n1 }, { oldarea with obj := n2 })

/-- Shallow embedding of the success path of `vmmap_map`
(vmmap.c:380-544), restricted to the state the claims inspect: the object
heap and the new area.  `find_range` for `lopage = 0` (vmmap.c:391-406) and
the deferred `vmmap_remove` of an overlapped range (vmmap.c:531-538) pick
the page range but never touch object wiring and are not modelled; the
per-page `lookuppage`/`fillpage` loops (vmmap.c:443-471, 489-520) are taken
on their success path.  With `file = NULL` an anonymous object is created
and reffed (vmmap.c:430-441) and becomes `vma_obj` (vmmap.c:475); otherwise
the object obtained from the vnode's `mmap` operation is reffed
(vmmap.c:481-487) and becomes `vma_obj` (vmmap.c:522).  The
`if (flags & MAP_PRIVATE)` block at vmmap.c:526-528 is empty — no shadow
object is created — and `vma_olink` is never inserted into any object's
list on this path. -/
def vmmap_map (h : MmoHeap) (file : Option Nat) (lopage npages prot flags off : Nat) :
    MmoHeap × Vmarea :=
  let area0 : Vmarea :=
    { vstart := lopage, vend := lopage + npages, voff := off / PAGE_SIZE,
      vprot := prot, vflags := flags, obj := 0, olinkedTo := none }
  match file with
  | none =>
    let (a, h1) := anon_create h
    let h2 := mmo_ref h1 a
    (h2, { area0 with obj := a })
  | some fobj =>
    let h2 := mmo_ref h fobj
    (h2, { area0 with obj := fobj })

/-- The loop of `vmmap_read` (vmmap.c:704-726), translated verbatim: each
iteration looks up the page and copies `readlen = min(PAGE_SIZE - offset,
count)` bytes from it to the destination, but neither `pagenum` nor the
destination cursor `buff` is ever advanced — every iteration copies into
`buf[0..readlen)` from the same page.  `mem` gives the bytes of each object
page as `lookuppage` with `forwrite = 0` returns them (a single area with
page offset 0 covering the range, so the object page number equals the
virtual page number).  Each iteration consumes at least one unit of
`count`, so fuel `count` suffices to run the loop to completion. -/
def vmmap_read_loop (mem : Nat → Buf) (fuel pagenum offset : Nat) (buf : Buf)
    (count : Nat) : Buf :=
  match fuel with
  | 0 => buf
  | fuel + 1 =>
    if count = 0 then buf
    else
      let readlen := min (PAGE_SIZE - offset) count
      let buf1 := memcpyBuf buf 0 (mem pagenum) offset readlen
      vmmap_read_loop mem fuel pagenum 0 buf1 (count - readlen)

/-- Shallow embedding of `vmmap_read` (vmmap.c:697-732). -/
def vmmap_read (mem : Nat → Buf) (vaddr : Nat) (buf : Buf) (count : Nat) : Buf :=
  vmmap_read_loop mem count (vaddr / PAGE_SIZE) (vaddr % PAGE_SIZE) buf count

/-- The loop of `vmmap_write` (vmmap.c:749-772), translated verbatim:
as in `vmmap_read`, neither `pagenum` nor the source cursor `buff` is
advanced; each iteration copies `buf[0..writelen)` into the same page at
`offset` and dirties that page. -/
def vmmap_write_loop (mem : Nat → Buf) (dirty : Nat → Bool)
    (fuel pagenum offset : Nat) (buf : Buf) (count : Nat) :
    (Nat → Buf) × (Nat → Bool) :=
  match fuel with
  | 0 => (mem, dirty)
  | fuel + 1 =>
    if count = 0 then (mem, dirty)
    else
      let writelen := min (PAGE_SIZE - offset) count
      let page1 := memcpyBuf (mem pagenum) offset buf 0 writelen
      let mem1 : Nat → Buf := fun p => if p = pagenum then page1 else mem p
      let dirty1 : Nat → Bool := fun p => if p = pagenum then true else dirty p
      vmmap_write_loop mem1 dirty1 fuel pagenum 0 buf (count - writelen)

/-- Shallow embedding of `vmmap_write` (vmmap.c:742-778); returns the final
object pages and the per-page dirty flags. -/
def vmmap_write (mem : Nat → Buf) (dirty : Nat → Bool) (vaddr : Nat)
    (buf : Buf) (count : Nat) : (Nat → Buf) × (Nat → Bool) :=
  vmmap_write_loop mem dirty count (vaddr / PAGE_SIZE) (vaddr % PAGE_SIZE) buf count

/-- The empty file used as the failing input of claims C1 and C5: size 0,
all blocks zero, inode clean. -/
def c5File0 : S5File := { size := 0, blocks := fun _ _ => 0, inodeDirty := false }

/-- The five-byte sequence written in claims C1 and C5 ("hello"). -/
def c5Bytes : Buf := fun i => [104, 101, 108, 108, 111].getD i 0

/-- Failing input of claim C9: a filesystem whose free-block array is
exhausted (`nfree = 0`) with the chain sentinel −1 in the last slot, mutex
not held. -/
def c9FsEmpty : FsState :=
  { super := { nfree := 0, freeBlocks := fun _ => U32_NEG1 },
    locked := false, superDirty := false, disk := fun _ _ => 0 }

/-- Failing input of claim C8: a regular data inode with no blocks
allocated. -/
def c8Inode : S5Inode :=
  { typ := S5Type.data, directBlocks := fun _ => 0, indirectBlock := 0, dirty := false }

/-- Arbitrary filesystem state for claim C8 (untouched on the exercised
path). -/
def c8Fs : FsState :=
  { super := { nfree := 1, freeBlocks := fun _ => 0 },
    locked := false, superDirty := false, disk := fun _ _ => 0 }

/-- Failing input of claim C2: a non-empty directory with two entries,
name-token 1 at inode 5 and name-token 2 at inode 6, each target with link
count 1. -/
def c2Dir : DirState :=
  { entries := [(1, 5), (2, 6)],
    linkcount := fun j => if j = 5 then 1 else if j = 6 then 1 else 0 }

/-- The empty directory, exhibiting the only live return path of
`s5_remove_dirent`. -/
def c2DirEmpty : DirState := { entries := [], linkcount := fun _ => 0 }

/-- Failing input of claim C6: a one-component filesystem — root is vnode 0
(the only directory) and name-token 10 under it resolves to vnode 1. -/
def c6Resolve : Nat → Nat → Option Nat :=
  fun d n => if d = 0 ∧ n = 10 then some 1 else none

/-- Directory predicate for claim C6's failing input: only the root. -/
def c6IsDir : Nat → Bool := fun v => v = 0

/-- Concrete open-file table for claim C10's witness: descriptor 3 holds
open file 7; every file's refcount is 1. -/
def c10Table : FdTable :=
  { files := fun i => if i = 3 then some 7 else none, frefc := fun _ => 1 }

/-- Failing input of claim C3: an object heap with ids 0-4 live (all
non-shadow), so the object created by `vmmap_map` gets id 5. -/
def c3Heap : MmoHeap := { objs := fun _ => mmoInit false, next := 5 }

/-- Concrete heap for claim C4's witness: one live non-shadow object,
id 0, with refcount 2 (one from each of the two VMAs sharing it). -/
def c4Heap : MmoHeap :=
  { objs := fun _ => { refcount := 2, isShadow := false, shadowed := none, bottom := none },
    next := 1 }

/-- Concrete private area pair for claim C4's witness: both areas map
object 0 privately. -/
def c4Area : Vmarea :=
  { vstart := 16, vend := 20, voff := 0, vprot := 1, vflags := MAP_PRIVATE,
    obj := 0, olinkedTo := none }

/-- Concrete shared area for claim C4's witness. -/
def c4AreaShared : Vmarea :=
  { vstart := 32, vend := 40, voff := 0, vprot := 1, vflags := MAP_SHARED,
    obj := 0, olinkedTo := none }

/-- Object pages for claim C7's failing input: every byte of page `p` has
value `p`, so bytes of different pages are distinguishable. -/
def c7Mem : Nat → Buf := fun p _ => p

/-- Destination buffer for claim C7's failing input: initialised to 42
everywhere. -/
def c7Buf : Buf := fun _ => 42

/-- Source buffer for claim C7's write side: constant 7. -/
def c7Src : Buf := fun _ => 7

/-- Claim C5 (code bug): a successful `s5_write_file` of 5 bytes at offset 0
into an empty file reports 5 bytes written, yet leaves the file size at 0 and
the inode clean — the single-block path of `s5_write_file`
(s5fs_subr.c:343-360) returns before the size-update and `s5_dirty_inode`
code at s5fs_subr.c:403-410, so the size does not become
`max(previous size, one past the last byte) = 5` as the claim states. -/
theorem c5_write_single_block_size_not_updated :
    (s5_write_file c5File0 0 c5Bytes 5).1 = 5 ∧
    (s5_write_file c5File0 0 c5Bytes 5).2.size = 0 ∧
    (s5_write_file c5File0 0 c5Bytes 5).2.inodeDirty = false := by
  refine ⟨?_, ?_, ?_⟩ <;> decide

/-- Claim C1 (code bug): writing the byte sequence "hello" at offset 0 of an
empty file via `s5_write_file` succeeds (returns 5), but the following
`s5_read_file` at offset 0 for 5 bytes returns 0 and leaves the destination
buffer untouched instead of yielding the bytes written: the single-block
write path never grew the size past 0, so the read hits the EOF test
`seek >= s5_size` (s5fs_subr.c:454) immediately.  (Destination buffer
initialised to the value 42 everywhere; byte 0 of the written data is 104.) -/
theorem c1_write_then_read_roundtrip_fails :
    (s5_write_file c5File0 0 c5Bytes 5).1 = 5 ∧
    (s5_read_file (s5_write_file c5File0 0 c5Bytes 5).2 (fun _ => 0) 0
      (fun _ => 42) 5).1 = 0 ∧
    (s5_read_file (s5_write_file c5File0 0 c5Bytes 5).2 (fun _ => 0) 0
      (fun _ => 42) 5).2 0 = 42 ∧
    c5Bytes 0 = 104 := by
  refine ⟨?_, ?_, ?_, ?_⟩ <;> decide

/-- Claim C9 (code bug): on the path where the free-block array is exhausted
and the chain sentinel is −1, `s5_alloc_block` returns `-ENOSPC` with the
filesystem mutex still held — the branch at s5fs_subr.c:561-564 returns
after `lock_s5` without calling `unlock_s5` (contrast `s5_alloc_inode`,
which unlocks before its `-ENOSPC` return, s5fs_subr.c:667-670), so the
mutex is not released on every return path as the claim states. -/
theorem c9_alloc_block_enospc_mutex_leak :
    (s5_alloc_block c9FsEmpty).1 = -ENOSPC ∧
    (s5_alloc_block c9FsEmpty).2.locked = true ∧
    c9FsEmpty.locked = false := by
  refine ⟨?_, ?_, ?_⟩ <;> decide

/-- Claim C8 (code bug): a seek pointer whose file-block index equals
`S5_MAX_FILE_BLOCKS` is NOT rejected with `-EINVAL` — the guard at
s5fs_subr.c:76 uses the strict comparison `>`, so the index equal to the
maximum passes it; on a data inode with a sparse indirect block and
`alloc = false` the call returns 0 (sparse) instead, and on alloc paths it
proceeds to index the indirect array out of bounds
(index `S5_NIDIRECT_BLOCKS` into an array of `S5_NIDIRECT_BLOCKS` entries). -/
theorem c8_seek_to_block_max_index_not_rejected :
    (S5_MAX_FILE_SIZE : Int).toNat / S5_BLOCK_SIZE = S5_MAX_FILE_BLOCKS ∧
    (s5_seek_to_block c8Inode c8Fs (S5_MAX_FILE_SIZE : Int) false).1 = 0 ∧
    (s5_seek_to_block c8Inode c8Fs (S5_MAX_FILE_SIZE : Int) false).1 ≠ -EINVAL := by
  refine ⟨?_, ?_, ?_⟩ <;> decide

/-- Claim C2 (code bug): `s5_remove_dirent` never performs a successful
removal at all — on the two-entry directory containing the name it panics,
because the search loop leaves in `err` the positive byte count returned by
`s5_read_file` (s5fs_subr.c:489) and the assertion `KASSERT(err == 0)` at
s5fs_subr.c:903 then fails on every non-empty directory, before the
move-last write, the shrink, and the link-count decrement.  The only live
return path is the empty directory, which returns `-ENOENT`.  So the
claimed behavior of successful calls (contiguity, shrink, and the removed
entry's inode being decremented) is unreachable — and the unreachable
decrement at s5fs_subr.c:930 targets the directory's inode besides. -/
theorem c2_remove_dirent_panics_on_nonempty_directory :
    s5_remove_dirent c2Dir 1 = RemoveDirentOut.panics ∧
    s5_remove_dirent c2DirEmpty 1 = RemoveDirentOut.ret (-ENOENT) c2DirEmpty := by
  exact ⟨rfl, rfl⟩

/-- Claim C6 (code bug): `do_stat` on the existing path with component
[10] under root (vnode 0, resolving to vnode 1, all refcounts initially 1)
returns success but leaves the refcount of the resolved vnode AND of the
parent directory at 2 instead of their pre-call value 1: `do_stat`
(vfs_syscall.c:775-780) never `vput`s the vnode returned by `open_namev`,
and `open_namev`'s success path (namev.c:229, 249-251) never `vput`s the
parent directory acquired through `dir_namev`. -/
theorem c6_do_stat_leaks_vnode_refs :
    (do_stat c6IsDir c6Resolve (fun _ _ => none) (fun _ => 1) 0 [10]).1 = 0 ∧
    (do_stat c6IsDir c6Resolve (fun _ _ => none) (fun _ => 1) 0 [10]).2 0 = 2 ∧
    (do_stat c6IsDir c6Resolve (fun _ _ => none) (fun _ => 1) 0 [10]).2 1 = 2 := by
  refine ⟨?_, ?_, ?_⟩ <;> decide

/-- Claim C10 (confirmed): calling `do_dup2` with `nfd = ofd` on an open
descriptor returns `nfd`, closes nothing (the descriptor table is exactly
as before), and leaves the open file's reference count one higher than
before the call — the reference taken by `fget` at vfs_syscall.c:210 is not
released on the early return at vfs_syscall.c:220-222; every other file's
count is unchanged. -/
theorem c10_do_dup2_same_fd_extra_ref (s : FdTable) (fd : Int) (f : Nat)
    (h0 : 0 ≤ fd) (h1 : fd < NFILES) (hf : s.files fd.toNat = some f) :
    (do_dup2 s fd fd).1 = fd ∧
    (do_dup2 s fd fd).2.files = s.files ∧
    (do_dup2 s fd fd).2.frefc f = s.frefc f + 1 ∧
    ∀ g, g ≠ f → (do_dup2 s fd fd).2.frefc g = s.frefc g := by
  have hofd : ¬fd = -1 := by omega
  have hrange : ¬(fd < 0 ∨ NFILES ≤ fd) := by
    push_neg
    exact ⟨by omega, h1⟩
  have key : do_dup2 s fd fd = (fd, fref s f) := by
    simp [do_dup2, fget, hofd, hrange, hf]
  rw [key]
  refine ⟨rfl, rfl, ?_, ?_⟩
  · simp [fref]
  · intro g hg
    simp [fref, hg]

/-- Witness for claim C10's theorem at the concrete table `c10Table`
(descriptor 3 open on file 7, all refcounts 1). -/
theorem c10_do_dup2_same_fd_extra_ref_witness :
    (do_dup2 c10Table 3 3).1 = 3 ∧
    (do_dup2 c10Table 3 3).2.frefc 7 = c10Table.frefc 7 + 1 := by
  have h := c10_do_dup2_same_fd_extra_ref c10Table 3 7 (by decide) (by decide) (by decide)
  exact ⟨h.1, h.2.2.1⟩

/-- Claim C3 (code bug): a successful anonymous PRIVATE `vmmap_map` leaves
the new VMA's `vma_obj` pointing at the anonymous object itself (the fresh
id 5 on a heap with 5 live objects) — not at a shadow object wrapping it:
the `if (flags & MAP_PRIVATE)` block at vmmap.c:526-528 is empty, so no
shadow is created (`isShadow` is false and `mmo_shadowed` null), and the
VMA's `vma_olink` is never inserted into the bottom object's
cross-reference list. -/
theorem c3_vmmap_map_private_creates_no_shadow :
    (vmmap_map c3Heap none 16 4 1 MAP_PRIVATE 0).2.obj = 5 ∧
    ((vmmap_map c3Heap none 16 4 1 MAP_PRIVATE 0).1.objs 5).isShadow = false ∧
    ((vmmap_map c3Heap none 16 4 1 MAP_PRIVATE 0).1.objs 5).shadowed = none ∧
    (vmmap_map c3Heap none 16 4 1 MAP_PRIVATE 0).2.olinkedTo = none := by
  refine ⟨?_, ?_, ?_, ?_⟩ <;> decide

/-- Claim C7 (code bug): reading `PAGE_SIZE + 1` bytes from virtual address
0 (object pages: every byte of page `p` is `p`; destination initialised to
42) leaves destination byte `PAGE_SIZE` at 42 instead of page 1's value 1 —
the loop at vmmap.c:704-726 never increments `pagenum` nor advances the
destination cursor, so the second iteration re-copies page 0's first byte
over destination byte 0.  Symmetrically, writing `PAGE_SIZE + 1` bytes of
the constant 7 leaves page 1 untouched (byte 0 still 1) and not dirtied;
only page 0 is written and dirtied (vmmap.c:749-772). -/
theorem c7_vmmap_rw_loops_never_advance :
    vmmap_read c7Mem 0 c7Buf (PAGE_SIZE + 1) 0 = 0 ∧
    vmmap_read c7Mem 0 c7Buf (PAGE_SIZE + 1) PAGE_SIZE = 42 ∧
    c7Mem 1 0 = 1 ∧ c7Src PAGE_SIZE = 7 ∧
    (vmmap_write c7Mem (fun _ => false) 0 c7Src (PAGE_SIZE + 1)).1 1 0 = 1 ∧
    (vmmap_write c7Mem (fun _ => false) 0 c7Src (PAGE_SIZE + 1)).2 0 = true ∧
    (vmmap_write c7Mem (fun _ => false) 0 c7Src (PAGE_SIZE + 1)).2 1 = false := by
  refine ⟨?_, ?_, ?_, ?_, ?_, ?_, ?_⟩ <;> decide

/-- Claim C4 (confirmed): for every pair of corresponding VMAs processed by
`vmmap_shadow` during fork (fork.c:63-132), under the source's asserted
preconditions (both areas private and sharing one object, all live ids
below the allocation watermark): two fresh, distinct shadow objects are
created (ids `h.next` and `h.next + 1`), the child's VMA gets the first and
the parent's the second, each has its `mmo_shadowed` pointer set to the
previously shared object, each shadow's refcount is incremented exactly
once (from 0 to 1), and the shared bottom object's refcount grows by
exactly two — once per shadow; a SHARED pair is left completely
unchanged. -/
theorem c4_fork_private_pairs_two_shadows :
    (∀ (h : MmoHeap) (na oa : Vmarea),
      oa.vflags &&& MAP_SHARED = 0 →
      na.obj = oa.obj →
      oa.obj < h.next →
      mmobj_bottom_obj h oa.obj < h.next →
      ((vmmap_shadow_pair h na oa).2.1.obj = h.next ∧
       (vmmap_shadow_pair h na oa).2.2.obj = h.next + 1 ∧
       ((vmmap_shadow_pair h na oa).1.objs h.next).isShadow = true ∧
       ((vmmap_shadow_pair h na oa).1.objs (h.next + 1)).isShadow = true ∧
       ((vmmap_shadow_pair h na oa).1.objs h.next).shadowed = some oa.obj ∧
       ((vmmap_shadow_pair h na oa).1.objs (h.next + 1)).shadowed = some oa.obj ∧
       ((vmmap_shadow_pair h na oa).1.objs h.next).refcount = 1 ∧
       ((vmmap_shadow_pair h na oa).1.objs (h.next + 1)).refcount = 1 ∧
       ((vmmap_shadow_pair h na oa).1.objs (mmobj_bottom_obj h oa.obj)).refcount
         = (h.objs (mmobj_bottom_obj h oa.obj)).refcount + 2)) ∧
    (∀ (h : MmoHeap) (na oa : Vmarea),
      oa.vflags &&& MAP_SHARED ≠ 0 →
      vmmap_shadow_pair h na oa = (h, na, oa)) := by
  constructor
  · intro h na oa hsh hobj hlt hblt
    have hne1 : h.next + 1 ≠ h.next := by omega
    have hne2 : h.next ≠ h.next + 1 := by omega
    have hb1 : mmobj_bottom_obj h oa.obj ≠ h.next := by omega
    have hb2 : mmobj_bottom_obj h oa.obj ≠ h.next + 1 := by omega
    have hb3 : h.next ≠ mmobj_bottom_obj h oa.obj := by omega
    have hb4 : h.next + 1 ≠ mmobj_bottom_obj h oa.obj := by omega
    unfold vmmap_shadow_pair
    rw [if_neg (not_not_intro hsh)]
    simp [shadow_create, allocMmo, setShadowLinks, mmo_ref, mmoInit,
      hne1, hne2, hb1, hb2, hb3, hb4]
  · intro h na oa hsh
    unfold vmmap_shadow_pair
    rw [if_pos hsh]

/-- Witness for claim C4's theorem at a concrete heap (one live non-shadow
object 0 with refcount 2) and concrete private and shared area pairs. -/
theorem c4_fork_private_pairs_two_shadows_witness :
    ((vmmap_shadow_pair c4Heap c4Area c4Area).1.objs 1).refcount = 1 ∧
    ((vmmap_shadow_pair c4Heap c4Area c4Area).1.objs 0).refcount = 4 ∧
    vmmap_shadow_pair c4Heap c4AreaShared c4AreaShared
      = (c4Heap, c4AreaShared, c4AreaShared) := by
  have h1 := c4_fork_private_pairs_two_shadows.1 c4Heap c4Area c4Area
    (by decide) rfl (by decide) (by decide)
  have h2 := c4_fork_private_pairs_two_shadows.2 c4Heap c4AreaShared c4AreaShared
    (by decide)
  exact ⟨h1.2.2.2.2.2.2.1, h1.2.2.2.2.2.2.2.2, h2⟩

end Weenix
